import Mathlib

/-!
Verification development for the Slite docs Slack bot (`api/index.js` and the
sibling handler variants).  The JavaScript source is shallowly embedded:
asynchronous network calls are represented by oracle values describing their
outcome (resolution value and completion time, or rejection), promise
rejection is represented by `Except.error`, and each handler is a pure
function from the request and the oracle to the emitted replies together
with a log of backend invocations.
-/

namespace SliteBot

/-- Outcome of one underlying `fetch` call: it either resolves with a value
at a given time (milliseconds since the call started) or rejects (network
failure) at a given time.  Time lets the embedding decide races against the
abort timer of `fetchWithTimeout`. -/
inductive FetchOp (α : Type) where
  | resolves (r : α) (t : Nat)
  | rejects (t : Nat)
deriving DecidableEq

/-- Outcome of `r.json()` on a response: a parsed value or a parse failure
(`malformed` models `r.json()` throwing). -/
inductive JsonBody (α : Type) where
  | parses (v : α)
  | malformed
deriving DecidableEq

/-- An HTTP response as the source consumes it: its status code and the
outcome of parsing its body. `r.ok` is derived from the status. -/
structure HttpResp (α : Type) where
  status : Nat
  body : JsonBody α
deriving DecidableEq

/-- `r.ok` in the source: status in the 2xx range. -/
def okStatus (s : Nat) : Bool := decide (200 ≤ s) && decide (s < 300)

/-- Embedding of `fetchWithTimeout(url, options, ms)` from `api/index.js`
lines 31-40.  The function races the wrapped `fetch` against an abort timer:
if the fetch resolves strictly before the budget it returns the response; if
the fetch rejects before the budget the rejection propagates (the `finally`
block only clears the timer, there is no `catch`); if the budget elapses
first the abort makes the fetch reject with the `"timeout"` error, which
also propagates.  The second component records that the timer was cleared
(`clearTimeout` in `finally` runs on every path). -/
def fetchWithTimeout (op : FetchOp α) (ms : Nat) : Except String α × Bool :=
  match op with
  | .resolves r t => if t < ms then (.ok r, true) else (.error "timeout", true)
  | .rejects t => if t < ms then (.error "fetch failed", true) else (.error "timeout", true)

/-- A search hit as consumed by the handler: only `noteId` is read. -/
structure Hit where
  noteId : String
deriving DecidableEq

/-- The JSON payload of a search response: `json?.hits` is either an array
(`some hits`) or absent / not an array (`none`). -/
structure SearchJson where
  hits : Option (List Hit)
deriving DecidableEq

/-- Embedding of the legacy branch of `sliteSearch` (`POST /v1/notes.search`,
lines 67-85): any rejection or non-2xx status or malformed payload yields
`[]`; a 2xx with a well-formed payload yields its `hits` array (or `[]` when
the field is absent or not an array). -/
def legacySearch (legacyOp : FetchOp (HttpResp SearchJson)) (ms : Nat) : List Hit :=
  match (fetchWithTimeout legacyOp ms).fst with
  | .error _ => []
  | .ok r =>
    if okStatus r.status then
      match r.body with
      | .parses j => (match j.hits with | some hs => hs | none => [])
      | .malformed => []
    else []

/-- Embedding of `sliteSearch(query, hits, budgetMs)` (lines 43-86).  The
modern endpoint is tried first; inside its `try` block a 2xx response with a
well-formed payload returns the hits, a non-2xx status other than 404
returns `[]`, and a 404 falls through to the legacy endpoint; a rejection of
the fetch (network error or timeout) or of `r.json()` is caught and also
falls through to the legacy endpoint.  The function returns a plain list on
every path: it never throws to its caller. -/
def sliteSearch (primaryOp legacyOp : FetchOp (HttpResp SearchJson)) (ms : Nat) : List Hit :=
  match (fetchWithTimeout primaryOp ms).fst with
  | .error _ => legacySearch legacyOp ms
  | .ok r =>
    if okStatus r.status then
      match r.body with
      | .parses j => (match j.hits with | some hs => hs | none => [])
      | .malformed => legacySearch legacyOp ms
    else if r.status = 404 then legacySearch legacyOp ms
    else []

/-- `note.content` of a fetched document: optional markdown and text fields. -/
structure NoteContent where
  markdown : Option String
  text : Option String
deriving DecidableEq

/-- `note` of a fetched document: optional title and content. -/
structure Note where
  title : Option String
  content : Option NoteContent
deriving DecidableEq

/-- A fetched document payload: an optional `note` object. -/
structure Doc where
  note : Option Note
deriving DecidableEq

/-- Embedding of the legacy branch of `sliteGet` (`POST /v1/notes.get`,
lines 103-117): rejection, non-2xx, or malformed payload yields `none`; a
2xx with a parsed payload yields the document. -/
def legacyGet (legacyOp : FetchOp (HttpResp Doc)) (ms : Nat) : Option Doc :=
  match (fetchWithTimeout legacyOp ms).fst with
  | .error _ => none
  | .ok r =>
    if okStatus r.status then
      match r.body with
      | .parses d => some d
      | .malformed => none
    else none

/-- Embedding of `sliteGet(noteId, budgetMs)` (lines 88-118): same shape as
`sliteSearch` — 2xx returns the parsed document, non-2xx other than 404
returns `null`, 404 and any caught rejection fall through to the legacy
endpoint, which swallows every failure into `null`.  Total: never throws. -/
def sliteGet (primaryOp legacyOp : FetchOp (HttpResp Doc)) (ms : Nat) : Option Doc :=
  match (fetchWithTimeout primaryOp ms).fst with
  | .error _ => legacyGet legacyOp ms
  | .ok r =>
    if okStatus r.status then
      match r.body with
      | .parses d => some d
      | .malformed => legacyGet legacyOp ms
    else if r.status = 404 then legacyGet legacyOp ms
    else none

/-- JavaScript whitespace for the `\s` class and for `trim()` (the strings
we model are ASCII; Unicode blanks behave the same way through
`Char.isWhitespace`). -/
def isJsWs (c : Char) : Bool := c.isWhitespace

/-- JavaScript `String.prototype.trim()`: strip whitespace from both ends. -/
def jsTrim (s : String) : String :=
  String.mk (((s.toList.dropWhile isJsWs).reverse.dropWhile isJsWs).reverse)

/-- The one-line message returned when the model call succeeds but its
completion content is absent, empty, or whitespace-only (line 174). -/
def clarifyShortFallback : String :=
  "There isn’t a document with that information directly. Can you be more specific so I can find what you need?"

/-- The static fallback text with the enumerated option list, used both by
the timeout promise (lines 140-147) and by the `catch` branch of the model
call (lines 176-183); the two literals in the source are identical. -/
def clarifyStaticFallback : String :=
  "There isn’t a document with that information directly. Can you be more specific so I can find what you need?\n• Google LSA – Message\n• Google LSA – Call\n• Google PPC – Website\n• Meta Lead Form\n• RealScout\n• Open House / Sign Call\n• Referral or Zillow/Flex"

/-- Outcome of the OpenAI chat-completion call: the call throws, or it
returns a completion whose extracted content
(`completion.choices?.[0]?.message?.content`) is `content`. -/
inductive ModelCall where
  | throws
  | succeeds (content : Option String)
deriving DecidableEq

/-- The value the `ask` closure of `clarifyingMessage` resolves with
(lines 153-185): a missing credential or a thrown model call is caught and
yields the static fallback; a successful call yields the trimmed content,
or the one-line fallback when the content is absent or trims to empty
(the `out || ...` line 174). -/
def askResult (hasKey : Bool) (call : ModelCall) : String :=
  if !hasKey then clarifyStaticFallback
  else
    match call with
    | .throws => clarifyStaticFallback
    | .succeeds content =>
      match content with
      | none => clarifyShortFallback
      | some s => if jsTrim s = "" then clarifyShortFallback else jsTrim s

/-- Embedding of `clarifyingMessage(userQuery, budgetMs)` (lines 134-188):
`Promise.race` between the `ask` closure (resolving at `askMs`) and a timer
that resolves with the static fallback at `budgetMs`.  The `ask` value wins
when it resolves strictly before the budget; otherwise the timer's static
fallback wins.  Both racers only resolve, so the race always yields a text
value and never rejects — the embedding is a total function into `String`. -/
def clarifyingMessage (hasKey : Bool) (call : ModelCall) (askMs budgetMs : Nat) : String :=
  if askMs < budgetMs then askResult hasKey call else clarifyStaticFallback

/-- The word-character class of the JavaScript regex `\b` boundary:
`[A-Za-z0-9_]`. -/
def isWordChar (c : Char) : Bool := c.isAlphanum || c = '_'

/-- A `\b` boundary holds at the start of the input (`none`) or after a
non-word character. -/
def boundaryOk : Option Char → Bool
  | none => true
  | some c => !isWordChar c

/-- Does phrase `p` occur at the head of `s`, with a `\b` boundary right
after it (next character absent or non-word)? -/
def matchesHere : List Char → List Char → Bool
  | [], rest => boundaryOk rest.head?
  | _ :: _, [] => false
  | p :: ps, c :: cs => (p == c) && matchesHere ps cs

/-- Scan `s` for an occurrence of phrase `p` preceded by a `\b` boundary
(`prev` is the character just before the current position). -/
def scanFor (p : List Char) : Option Char → List Char → Bool
  | prev, [] => boundaryOk prev && matchesHere p []
  | prev, c :: cs => (boundaryOk prev && matchesHere p (c :: cs)) || scanFor p (some c) cs

/-- The generic-intent phrases of the classifier regex (line 205). -/
def genericPhrases : List String :=
  ["how to work a lead", "lead process", "work a lead", "buyer lead", "seller lead"]

/-- Embedding of the classifier
`/\b(how to work a lead|lead process|work a lead|buyer lead|seller lead)\b/i.test(text)`
(line 205): case-insensitive word-boundary search for any of the fixed
phrases (the `/i` flag is modelled by lowercasing the input; the phrases
are ASCII). -/
def isGeneric (text : String) : Bool :=
  let s := text.toList.map Char.toLower
  genericPhrases.any (fun p => scanFor p.toList none s)

/-- Embedding of `parseSlashBody` (lines 19-29).  The form decoding
(`URLSearchParams`) is abstracted to the extracted `text` field: `textField`
is the combined value of `params.get("text") || req.body.text`, possibly
absent; the model keeps the `|| ""` default and the final `.trim()`. -/
def parseSlashBody (textField : Option String) : String :=
  jsTrim (textField.getD "")

/-- An emitted reply: HTTP status, whether `response_type` is
`"ephemeral"`, and the text body. -/
structure Reply where
  status : Nat
  ephemeral : Bool
  text : String
deriving DecidableEq

/-- The usage reply for an empty query (lines 198-201). -/
def usageReply : Reply := ⟨200, true, "Usage: `/ask your question`"⟩

/-- The catch-all error reply (lines 229-232). -/
def errorReply (msg : String) : Reply := ⟨200, true, "❌ Error: " ++ msg⟩

/-- Collapse every run of whitespace into a single space, as
`replace(/\s+/g, " ")` does; `prevWs` records whether the previous
character was part of a whitespace run already replaced. -/
def collapseRun : Bool → List Char → List Char
  | _, [] => []
  | prevWs, c :: cs =>
    if isJsWs c then
      if prevWs then collapseRun true cs else ' ' :: collapseRun true cs
    else c :: collapseRun false cs

/-- `(md || "").replace(/\s+/g, " ")` on a string. -/
def collapseWs (s : String) : String := String.mk (collapseRun false s.toList)

/-- `(md || "").replace(/\s+/g, " ").slice(0, 280)` (line 220): whitespace
is collapsed first, then the result is truncated to 280 characters. -/
def snippetOf (md : String) : String := String.mk ((collapseWs md).toList.take 280)

/-- `topRaw?.note?.title || "Document"` (line 218): absent note, absent
title, or an empty (falsy) title all default to `"Document"`. -/
def titleOf (d : Option Doc) : String :=
  match d with
  | none => "Document"
  | some doc =>
    match doc.note with
    | none => "Document"
    | some n =>
      match n.title with
      | none => "Document"
      | some t => if t = "" then "Document" else t

/-- `topRaw?.note?.content?.markdown || topRaw?.note?.content?.text || ""`
(line 219): the markdown body when truthy, else the text body when present,
else the empty string. -/
def bodyOf (d : Option Doc) : String :=
  match d with
  | none => ""
  | some doc =>
    match doc.note with
    | none => ""
    | some n =>
      match n.content with
      | none => ""
      | some c =>
        match c.markdown with
        | some m => if m = "" then (match c.text with | some t => t | none => "") else m
        | none => match c.text with | some t => t | none => ""

/-- The fixed tail of the top-match reply text (line 224). -/
def topMatchTail : String :=
  "\n\nIf this isn’t it, tell me the specific lead source (e.g., *Google LSA – Message*, *Google PPC – Website*, *Zillow/Flex*)."

/-- The top-match reply text (line 224):
`*Top match:* TITLE\n` then, when the snippet is non-empty, `> SNIPPET…`,
then the fixed narrowing prompt.  The association of the appends is chosen
so that the concatenation is character-for-character the template string of
the source. -/
def topMatchText (title snippet : String) : String :=
  "*Top match:* " ++ title ++
    ("\n" ++ (if snippet = "" then topMatchTail else "> " ++ ((snippet ++ "…") ++ topMatchTail)))

/-- Environment configuration read by the handler: whether
`OPENAI_API_KEY` is set (the Slite key only flows into headers, which the
oracle for each fetch already accounts for). -/
structure Env where
  hasOpenAIKey : Bool
deriving DecidableEq

/-- Oracle for every backend interaction one request can perform. -/
structure Backend where
  searchPrimary : FetchOp (HttpResp SearchJson)
  searchLegacy : FetchOp (HttpResp SearchJson)
  getPrimary : FetchOp (HttpResp Doc)
  getLegacy : FetchOp (HttpResp Doc)
  modelCall : ModelCall
  modelMs : Nat
deriving DecidableEq

/-- The inbound request: its method and the (abstracted) `text` form field. -/
structure SlashReq where
  method : String
  textField : Option String
deriving DecidableEq

/-- Log of backend invocations made while handling one request. -/
structure Calls where
  searchCount : Nat
  getIds : List String
  clarifyCount : Nat
deriving DecidableEq

/-- No backend invocation at all. -/
def noCalls : Calls := ⟨0, [], 0⟩

/-- The `try` block of the handler (lines 194-226), returning the reply and
the call log, or `Except.error` when an unexpected exception is raised
inside the block (`inject` is the oracle for such a failure; none of the
helpers can throw, but the `try`/`catch` of the source guards arbitrary
runtime failures, which the model makes explicit). -/
def handlerTry (req : SlashReq) (env : Env) (b : Backend) (inject : Option String) :
    Except String (Reply × Calls) :=
  match inject with
  | some e => .error e
  | none =>
    if parseSlashBody req.textField = "" then .ok (usageReply, noCalls)
    else if isGeneric (parseSlashBody req.textField) then
      .ok (⟨200, true, clarifyingMessage env.hasOpenAIKey b.modelCall b.modelMs 1400⟩,
        ⟨0, [], 1⟩)
    else
      match sliteSearch b.searchPrimary b.searchLegacy 1200 with
      | [] =>
        .ok (⟨200, true, clarifyingMessage env.hasOpenAIKey b.modelCall b.modelMs 1400⟩,
          ⟨1, [], 1⟩)
      | h :: _ =>
        .ok (⟨200, true,
          topMatchText (titleOf (sliteGet b.getPrimary b.getLegacy 1200))
            (snippetOf (bodyOf (sliteGet b.getPrimary b.getLegacy 1200)))⟩,
          ⟨1, [h.noteId], 0⟩)

/-- Embedding of the default-exported `handler` (lines 191-234): non-POST is
rejected with 405; otherwise the `try` block runs and its reply is emitted,
and any exception raised inside it is caught and converted into the 200
ephemeral error reply.  The first component lists the replies emitted
(`res.status(...).json(...)` calls); every path emits exactly one. -/
def handler (req : SlashReq) (env : Env) (b : Backend) (inject : Option String) :
    List Reply × Calls :=
  if req.method ≠ "POST" then ([⟨405, false, "Use POST"⟩], noCalls)
  else
    match handlerTry req env b inject with
    | .ok (r, c) => ([r], c)
    | .error e => ([errorReply e], noCalls)

/-- Inbound request of the detached handler variant: its method and the
destructured body fields `text`, `response_url`, `user_name`, each possibly
absent. -/
structure DetachedReq where
  method : String
  text : Option String
  responseUrl : Option String
  userName : Option String
deriving DecidableEq

/-- The model-call JSON of the detached variant: the extracted
`data.choices?.[0]?.message?.content`. -/
structure AiJson where
  content : Option String
deriving DecidableEq

/-- Outcome of the OpenAI fetch of the detached variant (the fetch or
`aiResponse.json()` throws, or a payload is obtained). -/
inductive AiCall where
  | throws
  | returns (j : AiJson)
deriving DecidableEq

/-- A POST made to the callback reference: the target URL, whether
`response_type` is `"in_channel"` (channel-visible), and the text. -/
structure Delivery where
  url : String
  channelVisible : Bool
  text : String
deriving DecidableEq

/-- Oracle for the detached handler: the model-call outcome and whether the
two possible `fetch(response_url, ...)` calls (answer delivery, error-path
delivery) reject when made against a present URL. -/
structure DetachedOracle where
  ai : AiCall
  answerDeliveryThrows : Bool
  errorDeliveryThrows : Bool
deriving DecidableEq

/-- Result of one detached-handler run: HTTP replies emitted on the inbound
connection, callback deliveries performed, whether the model backend call
was attempted, and the error of an exception escaping the handler, if any. -/
structure DetachedResult where
  httpReplies : List Reply
  deliveries : List Delivery
  aiAttempted : Bool
  escaped : Option String
deriving DecidableEq

/-- The fallback answer of the detached variant. -/
def aiErrorText : String := "⚠️ Error: I wasn’t able to generate an answer."

/-- The error-path delivery text of the detached variant. -/
def detachedErrorText : String := "⚠️ Sorry, something went wrong while processing your request."

/-- The immediate acknowledgment text; an absent `user_name` interpolates as
the string `"undefined"`, as JavaScript template literals do. -/
def ackText (userName : Option String) : String :=
  "⏳ Got it <@" ++ userName.getD "undefined" ++ ">! I’m looking that up for you…"

/-- The final answer text of the detached variant (absent `text`
interpolates as `"undefined"`). -/
def answerText (text : Option String) (answer : String) : String :=
  "💡 *Answer for:* \"" ++ text.getD "undefined" ++ "\"\n\n" ++ answer

/-- `data.choices?.[0]?.message?.content?.trim() || "⚠️ Error: ..."`. -/
def aiAnswer (j : AiJson) : String :=
  match j.content with
  | none => aiErrorText
  | some s => if jsTrim s = "" then aiErrorText else jsTrim s

/-- The rejection reason of `fetch` invoked with an absent URL:
`node-fetch` rejects with a `TypeError` because `undefined` is not an
absolute URL, so any delivery attempt against a missing callback reference
throws. -/
def invalidUrlError : String := "Only absolute URLs are supported"

/-- The error-path delivery of the `catch` block (part_002 lines 58-66):
with an absent callback reference the fetch itself rejects and the
rejection escapes the handler; with a present URL the delivery either
rejects (escaping) or posts the ephemeral error text. -/
def detachedCatch (req : DetachedReq) (o : DetachedOracle) : List Delivery × Option String :=
  match req.responseUrl with
  | none => ([], some invalidUrlError)
  | some u =>
    if o.errorDeliveryThrows then ([], some "fetch failed")
    else ([⟨u, false, detachedErrorText⟩], none)

/-- Embedding of the detached handler (src/unnamed/part_002): non-POST is
rejected with 405; otherwise the acknowledgment is sent at once, then the
`try` block calls OpenAI and posts the answer to `response_url`; any
exception inside the block runs the `catch`, whose own delivery attempt can
reject again, in which case the exception escapes the handler.  There is no
guard on `response_url`: both delivery attempts are made unconditionally,
and with an absent URL each rejects. -/
def detachedHandler (req : DetachedReq) (o : DetachedOracle) : DetachedResult :=
  if req.method ≠ "POST" then ⟨[⟨405, false, "Method Not Allowed"⟩], [], false, none⟩
  else
    let ack : Reply := ⟨200, true, ackText req.userName⟩
    match o.ai with
    | .throws =>
      let c := detachedCatch req o
      ⟨[ack], c.fst, true, c.snd⟩
    | .returns j =>
      match req.responseUrl with
      | none =>
        let c := detachedCatch req o
        ⟨[ack], c.fst, true, c.snd⟩
      | some u =>
        if o.answerDeliveryThrows then
          let c := detachedCatch req o
          ⟨[ack], c.fst, true, c.snd⟩
        else ⟨[ack], [⟨u, true, answerText req.text (aiAnswer j)⟩], true, none⟩

/-- Outcome of a plain `fetch` call (no timeout wrapper), as the variant in
src/unnamed/part_001 performs: it rejects, or it yields a response. -/
inductive PlainFetch (α : Type) where
  | rejects
  | answers (r : HttpResp α)
deriving DecidableEq

/-- Embedding of `sliteSearch(query, hits)` of src/unnamed/part_001: a plain
fetch with `if (!r.ok) throw new Error(...)` and `return r.json()` — every
failure (network rejection, non-2xx status, malformed payload) propagates as
an exception to the caller; a 2xx with a well-formed payload returns the
parsed JSON. -/
def sliteSearchV1 (op : PlainFetch SearchJson) : Except String SearchJson :=
  match op with
  | .rejects => .error "fetch failed"
  | .answers r =>
    if okStatus r.status then
      match r.body with
      | .parses j => .ok j
      | .malformed => .error "invalid json"
    else .error ("Slite search " ++ toString r.status)

/-- Embedding of `sliteGet(noteId)` of src/unnamed/part_001: same throwing
policy as its `sliteSearch`. -/
def sliteGetV1 (op : PlainFetch Doc) : Except String Doc :=
  match op with
  | .rejects => .error "fetch failed"
  | .answers r =>
    if okStatus r.status then
      match r.body with
      | .parses d => .ok d
      | .malformed => .error "invalid json"
    else .error ("Slite get " ++ toString r.status)

/-- Embedding of `clarifyingMessage(userQuery)` of src/unnamed/part_001 (no
race, no key check): a thrown model call is caught and yields the static
fallback (the literal is identical to the one in api/index.js); a
successful call returns `content?.trim()`, which is `undefined` (`none`)
when the content is absent. -/
def clarifyingMessageV1 (call : ModelCall) : Option String :=
  match call with
  | .throws => some clarifyStaticFallback
  | .succeeds content =>
    match content with
    | none => none
    | some s => some (jsTrim s)

/-- Oracle for the backend interactions of the part_001 handler. -/
structure V1Backend where
  search : PlainFetch SearchJson
  get : PlainFetch Doc
  modelCall : ModelCall
deriving DecidableEq

/-- A reply of the part_001 handler; its `text` field is `none` when the
interpolated JavaScript value is `undefined` (a successful model call with
absent content). -/
structure V1Reply where
  status : Nat
  ephemeral : Bool
  text : Option String
deriving DecidableEq

/-- Embedding of the default-exported handler of src/unnamed/part_001
(the claim's cited lines: `generic` is computed at line 122, but
`await sliteSearch(text, 3)` runs unconditionally at line 125, before the
`generic || !hits.length` branch at line 128).  A throwing search or
document fetch propagates to the catch-all, which emits the error reply —
on such a path the Clarifier is never invoked.  The nested matches keep the
source's branch semantics: search first, then the generic/empty test, then
the top-document path. -/
def handlerV1 (req : SlashReq) (b : V1Backend) : List V1Reply × Calls :=
  if req.method ≠ "POST" then ([⟨405, false, some "Use POST"⟩], noCalls)
  else if parseSlashBody req.textField = "" then
    ([⟨200, true, some "Usage: `/ask your question`"⟩], noCalls)
  else
    match sliteSearchV1 b.search with
    | .error e => ([⟨200, true, some ("❌ Error: " ++ e)⟩], ⟨1, [], 0⟩)
    | .ok j =>
      match j.hits.getD [] with
      | [] => ([⟨200, true, clarifyingMessageV1 b.modelCall⟩], ⟨1, [], 1⟩)
      | h :: _ =>
        if isGeneric (parseSlashBody req.textField) then
          ([⟨200, true, clarifyingMessageV1 b.modelCall⟩], ⟨1, [], 1⟩)
        else
          match sliteGetV1 b.get with
          | .error e => ([⟨200, true, some ("❌ Error: " ++ e)⟩], ⟨1, [h.noteId], 0⟩)
          | .ok top =>
            ([⟨200, true,
              some (topMatchText (titleOf (some top)) (snippetOf (bodyOf (some top))))⟩],
              ⟨1, [h.noteId], 0⟩)

/-! ## Helper lemmas -/

/-- The snippet is truncated to at most 280 characters. -/
theorem snippetOf_length_le (md : String) : (snippetOf md).length ≤ 280 := by
  show ((collapseWs md).toList.take 280).length ≤ 280
  rw [List.length_take]
  exact min_le_left _ _

/-- Every reply the `try` block of the handler produces has status 200 and
ephemeral visibility. -/
theorem handlerTry_ok_shape (req : SlashReq) (env : Env) (b : Backend) (inj : Option String)
    (r : Reply) (c : Calls) (h : handlerTry req env b inj = Except.ok (r, c)) :
    r.status = 200 ∧ r.ephemeral = true := by
  unfold handlerTry at h
  cases inj with
  | some e => simp at h
  | none =>
    repeat' split at h
    all_goals cases h
    all_goals exact ⟨rfl, rfl⟩

/-! ## Claim theorems -/

/-- C1: for every inbound POST request — whatever the backend oracle does,
and even when an unexpected exception is raised inside the `try` block —
the handler emits exactly one reply, and that reply has HTTP status 200
and ephemeral visibility; no path emits zero replies, several replies, or
a 5xx. -/
theorem handler_single_ephemeral_ok (req : SlashReq) (env : Env) (b : Backend)
    (inj : Option String) (hm : req.method = "POST") :
    (handler req env b inj).fst.length = 1 ∧
    ∀ r ∈ (handler req env b inj).fst, r.status = 200 ∧ r.ephemeral = true := by
  unfold handler
  rw [if_neg (by simp [hm])]
  cases hh : handlerTry req env b inj with
  | ok rc =>
    obtain ⟨r, c⟩ := rc
    refine ⟨by simp, ?_⟩
    intro x hx
    simp only [List.mem_singleton] at hx
    subst hx
    exact handlerTry_ok_shape req env b inj x c hh
  | error e =>
    refine ⟨by simp, ?_⟩
    intro x hx
    simp only [List.mem_singleton] at hx
    subst hx
    exact ⟨rfl, rfl⟩

/-- C1 witness: a concrete POST request on which an unexpected exception is
injected still gets exactly one 200 ephemeral reply. -/
theorem handler_single_ephemeral_ok_witness :
    (handler ⟨"POST", none⟩ ⟨false⟩
        ⟨FetchOp.rejects 0, FetchOp.rejects 0, FetchOp.rejects 0, FetchOp.rejects 0,
          ModelCall.throws, 0⟩ (some "boom")).fst.length = 1 ∧
    ∀ r ∈ (handler ⟨"POST", none⟩ ⟨false⟩
        ⟨FetchOp.rejects 0, FetchOp.rejects 0, FetchOp.rejects 0, FetchOp.rejects 0,
          ModelCall.throws, 0⟩ (some "boom")).fst, r.status = 200 ∧ r.ephemeral = true :=
  handler_single_ephemeral_ok _ _ _ _ rfl

/-- C2 counterexample: `fetchWithTimeout` does throw past its boundary.
When the budget elapses first the abort makes the wrapped fetch reject and
the rejection propagates as an exception (`Except.error "timeout"`), and a
network failure of the operation likewise propagates — neither outcome is
returned as a value, refuting the claim at these concrete inputs. -/
theorem fetchWithTimeout_throws_counterexample :
    (fetchWithTimeout (FetchOp.resolves (42 : Nat) 2000) 1500).fst = Except.error "timeout" ∧
    (fetchWithTimeout (FetchOp.rejects 100 : FetchOp Nat) 1500).fst = Except.error "fetch failed" :=
  ⟨rfl, rfl⟩

/-- C2 amended: `fetchWithTimeout` returns the operation's result only when
the operation resolves within the budget; a timeout or a network failure
propagates as an exception to the caller (its callers catch it).  On every
path the timer resource is released (second component `true`). -/
theorem fetchWithTimeout_behavior (v t ms : Nat) :
    fetchWithTimeout (FetchOp.resolves v t) ms =
      ((if t < ms then Except.ok v else Except.error "timeout"), true) ∧
    fetchWithTimeout (FetchOp.rejects t : FetchOp Nat) ms =
      ((if t < ms then Except.error "fetch failed" else Except.error "timeout"), true) := by
  by_cases h : t < ms <;> simp [fetchWithTimeout, h]

/-- C3 counterexample: a network failure (rejection) of the primary search
variant is not a not-implemented signal, yet the legacy variant is tried
and its hits are returned — not the empty hit sequence the claim
prescribes for every primary failure other than not-implemented. -/
theorem sliteSearch_fallback_counterexample :
    sliteSearch (FetchOp.rejects 0)
        (FetchOp.resolves ⟨200, JsonBody.parses ⟨some [⟨"n1"⟩]⟩⟩ 0) 1200 = [⟨"n1"⟩] ∧
    ([⟨"n1"⟩] : List Hit) ≠ [] :=
  ⟨rfl, by decide⟩

/-- C3 amended: the legacy variant is tried when the primary attempt
rejects (network error or timeout), when its 2xx payload is malformed, or
when it reports 404; a primary non-2xx status other than 404 yields `[]`
without trying the legacy variant; a primary 2xx with a well-formed payload
returns its hits directly.  `sliteSearch` is a total function into a hit
list: it never throws to its caller. -/
theorem sliteSearch_fallback_policy (pl : FetchOp (HttpResp SearchJson))
    (t s ms : Nat) (b : JsonBody SearchJson) :
    sliteSearch (FetchOp.rejects t) pl ms = legacySearch pl ms ∧
    sliteSearch (FetchOp.resolves ⟨s, b⟩ t) pl ms =
      (if t < ms then
        (if okStatus s then
          (match b with
           | .parses j => (match j.hits with | some hs => hs | none => [])
           | .malformed => legacySearch pl ms)
         else if s = 404 then legacySearch pl ms else [])
       else legacySearch pl ms) := by
  by_cases h : t < ms <;> simp [sliteSearch, fetchWithTimeout, h]

/-- C4: whenever the language-model call throws or the model credential is
absent from the environment, `clarifyingMessage` resolves to exactly the
static fallback text with the enumerated option list — the `catch` branch
of the `ask` closure and the timeout promise carry the identical literal,
so the race winner is that text whichever side wins; and the embedding is a
total function into `String`, so the promise always resolves with a text
value and never rejects. -/
theorem clarifyingMessage_static_on_throw (hasKey : Bool) (call : ModelCall)
    (askMs budgetMs : Nat) (h : hasKey = false ∨ call = ModelCall.throws) :
    clarifyingMessage hasKey call askMs budgetMs = clarifyStaticFallback := by
  unfold clarifyingMessage askResult
  rcases h with h | h <;> subst h
  · simp
  · cases hasKey <;> simp

/-- C4 witness: with the credential absent and a thrown call, the result is
the static fallback. -/
theorem clarifyingMessage_static_on_throw_witness :
    clarifyingMessage false ModelCall.throws 0 1400 = clarifyStaticFallback :=
  clarifyingMessage_static_on_throw false ModelCall.throws 0 1400 (Or.inl rfl)

/-- C5 counterexample: with one search hit but a document fetch that fails
on both variants, the handler still calls the Document Fetcher on the first
hit, but the emitted reply carries no excerpt and no ellipsis marker at all
(the text contains no `…` character), refuting the claim that the reply of
every ≥1-hit request contains an excerpt followed by an ellipsis marker. -/
theorem handler_answer_no_ellipsis_counterexample :
    (handler ⟨"POST", some "refund policy"⟩ ⟨true⟩
        ⟨FetchOp.resolves ⟨200, JsonBody.parses ⟨some [⟨"n1"⟩]⟩⟩ 0, FetchOp.rejects 0,
          FetchOp.rejects 0, FetchOp.rejects 0, ModelCall.throws, 0⟩ none).fst =
      [⟨200, true, topMatchText "Document" ""⟩] ∧
    (handler ⟨"POST", some "refund policy"⟩ ⟨true⟩
        ⟨FetchOp.resolves ⟨200, JsonBody.parses ⟨some [⟨"n1"⟩]⟩⟩ 0, FetchOp.rejects 0,
          FetchOp.rejects 0, FetchOp.rejects 0, ModelCall.throws, 0⟩ none).snd.getIds = ["n1"] ∧
    ¬ ('…' ∈ (topMatchText "Document" "").toList) :=
  ⟨by decide, by decide, by decide⟩

/-- C5 amended: for every non-generic request whose search yields at least
one hit, the Document Fetcher is invoked exactly once, on the first hit's
identifier only, and the reply is the top-match text built from the fetched
title (default `"Document"` when absent) and the excerpt obtained by
collapsing the body's whitespace runs to single spaces and then truncating
to at most 280 characters; the reply text contains the title, and — when
the fetch succeeds with a non-empty collapsed body — the excerpt followed
by the ellipsis marker; when the fetch fails or the body is empty the
excerpt segment is omitted. -/
theorem handler_answer_path (req : SlashReq) (env : Env) (b : Backend)
    (hit : Hit) (rest : List Hit) (hm : req.method = "POST")
    (hne : parseSlashBody req.textField ≠ "")
    (hg : isGeneric (parseSlashBody req.textField) = false)
    (hs : sliteSearch b.searchPrimary b.searchLegacy 1200 = hit :: rest) :
    (handler req env b none).snd = ⟨1, [hit.noteId], 0⟩ ∧
    (handler req env b none).fst =
      [⟨200, true,
        topMatchText (titleOf (sliteGet b.getPrimary b.getLegacy 1200))
          (snippetOf (bodyOf (sliteGet b.getPrimary b.getLegacy 1200)))⟩] ∧
    (snippetOf (bodyOf (sliteGet b.getPrimary b.getLegacy 1200))).length ≤ 280 ∧
    (∃ pre post,
      topMatchText (titleOf (sliteGet b.getPrimary b.getLegacy 1200))
          (snippetOf (bodyOf (sliteGet b.getPrimary b.getLegacy 1200))) =
        pre ++ titleOf (sliteGet b.getPrimary b.getLegacy 1200) ++ post) ∧
    (snippetOf (bodyOf (sliteGet b.getPrimary b.getLegacy 1200)) ≠ "" →
      ∃ pre post,
        topMatchText (titleOf (sliteGet b.getPrimary b.getLegacy 1200))
            (snippetOf (bodyOf (sliteGet b.getPrimary b.getLegacy 1200))) =
          pre ++ (snippetOf (bodyOf (sliteGet b.getPrimary b.getLegacy 1200)) ++ "…") ++ post) := by
  unfold handler handlerTry
  rw [if_neg (by simp [hm])]
  simp only [hne, hg, hs, if_neg, if_false, Bool.false_eq_true]
  refine ⟨?_, ?_, snippetOf_length_le _, ⟨"*Top match:* ", _, rfl⟩, ?_⟩
  · trivial
  · trivial
  · intro hsnip
    refine ⟨"*Top match:* " ++ titleOf (sliteGet b.getPrimary b.getLegacy 1200) ++ "\n" ++ "> ",
      topMatchTail, ?_⟩
    unfold topMatchText
    rw [if_neg hsnip]
    simp only [String.append_assoc]

/-- C5 witness: a concrete one-hit request with a successful document fetch;
the logged fetch is on the first hit and the reply is the top-match text. -/
theorem handler_answer_path_witness :
    (handler ⟨"POST", some "refund policy"⟩ ⟨true⟩
        ⟨FetchOp.resolves ⟨200, JsonBody.parses ⟨some [⟨"n1"⟩, ⟨"n2"⟩]⟩⟩ 0, FetchOp.rejects 0,
          FetchOp.resolves ⟨200, JsonBody.parses
            ⟨some ⟨some "SOP: Leads", some ⟨some "Step one...   Step two", none⟩⟩⟩⟩ 0,
          FetchOp.rejects 0, ModelCall.throws, 0⟩ none).snd = ⟨1, ["n1"], 0⟩ ∧
    (handler ⟨"POST", some "refund policy"⟩ ⟨true⟩
        ⟨FetchOp.resolves ⟨200, JsonBody.parses ⟨some [⟨"n1"⟩, ⟨"n2"⟩]⟩⟩ 0, FetchOp.rejects 0,
          FetchOp.resolves ⟨200, JsonBody.parses
            ⟨some ⟨some "SOP: Leads", some ⟨some "Step one...   Step two", none⟩⟩⟩⟩ 0,
          FetchOp.rejects 0, ModelCall.throws, 0⟩ none).fst =
      [⟨200, true,
        topMatchText
          (titleOf (sliteGet
            (FetchOp.resolves ⟨200, JsonBody.parses
              ⟨some ⟨some "SOP: Leads", some ⟨some "Step one...   Step two", none⟩⟩⟩⟩ 0)
            (FetchOp.rejects 0) 1200))
          (snippetOf (bodyOf (sliteGet
            (FetchOp.resolves ⟨200, JsonBody.parses
              ⟨some ⟨some "SOP: Leads", some ⟨some "Step one...   Step two", none⟩⟩⟩⟩ 0)
            (FetchOp.rejects 0) 1200)))⟩] ∧
    (snippetOf (bodyOf (sliteGet
        (FetchOp.resolves ⟨200, JsonBody.parses
          ⟨some ⟨some "SOP: Leads", some ⟨some "Step one...   Step two", none⟩⟩⟩⟩ 0)
        (FetchOp.rejects 0) 1200))).length ≤ 280 ∧
    (∃ pre post,
      topMatchText
          (titleOf (sliteGet
            (FetchOp.resolves ⟨200, JsonBody.parses
              ⟨some ⟨some "SOP: Leads", some ⟨some "Step one...   Step two", none⟩⟩⟩⟩ 0)
            (FetchOp.rejects 0) 1200))
          (snippetOf (bodyOf (sliteGet
            (FetchOp.resolves ⟨200, JsonBody.parses
              ⟨some ⟨some "SOP: Leads", some ⟨some "Step one...   Step two", none⟩⟩⟩⟩ 0)
            (FetchOp.rejects 0) 1200))) =
        pre ++ titleOf (sliteGet
            (FetchOp.resolves ⟨200, JsonBody.parses
              ⟨some ⟨some "SOP: Leads", some ⟨some "Step one...   Step two", none⟩⟩⟩⟩ 0)
            (FetchOp.rejects 0) 1200) ++ post) ∧
    (snippetOf (bodyOf (sliteGet
        (FetchOp.resolves ⟨200, JsonBody.parses
          ⟨some ⟨some "SOP: Leads", some ⟨some "Step one...   Step two", none⟩⟩⟩⟩ 0)
        (FetchOp.rejects 0) 1200)) ≠ "" →
      ∃ pre post,
        topMatchText
            (titleOf (sliteGet
              (FetchOp.resolves ⟨200, JsonBody.parses
                ⟨some ⟨some "SOP: Leads", some ⟨some "Step one...   Step two", none⟩⟩⟩⟩ 0)
              (FetchOp.rejects 0) 1200))
            (snippetOf (bodyOf (sliteGet
              (FetchOp.resolves ⟨200, JsonBody.parses
                ⟨some ⟨some "SOP: Leads", some ⟨some "Step one...   Step two", none⟩⟩⟩⟩ 0)
              (FetchOp.rejects 0) 1200))) =
          pre ++ (snippetOf (bodyOf (sliteGet
              (FetchOp.resolves ⟨200, JsonBody.parses
                ⟨some ⟨some "SOP: Leads", some ⟨some "Step one...   Step two", none⟩⟩⟩⟩ 0)
              (FetchOp.rejects 0) 1200)) ++ "…") ++ post) :=
  handler_answer_path _ _ _ ⟨"n1"⟩ [⟨"n2"⟩] rfl (by decide) (by decide) rfl

/-- C6 counterexample: in the cited part_001 handler a generic query does
invoke the Search Client — the search runs unconditionally before the
generic branch is consulted — and when that search throws, the catch-all
error reply is emitted and the Clarifier is never reached: at this concrete
generic input the search count is 1, the reply is the error reply, and the
clarifier count is 0, refuting the claim for that cited implementation. -/
theorem generic_invokes_search_counterexample :
    (handlerV1 ⟨"POST", some "how to work a lead"⟩
        ⟨PlainFetch.rejects, PlainFetch.rejects, ModelCall.throws⟩).snd.searchCount = 1 ∧
    (handlerV1 ⟨"POST", some "how to work a lead"⟩
        ⟨PlainFetch.rejects, PlainFetch.rejects, ModelCall.throws⟩).fst =
      [⟨200, true, some "❌ Error: fetch failed"⟩] ∧
    (handlerV1 ⟨"POST", some "how to work a lead"⟩
        ⟨PlainFetch.rejects, PlainFetch.rejects, ModelCall.throws⟩).snd.clarifyCount = 0 :=
  ⟨rfl, by decide, rfl⟩

/-- C6 amended: in the api/index.js handler, every generic query bypasses
the Search Client entirely (search count 0, no document fetch) and goes
directly to the Clarifier, whose text is emitted as the single private
reply; in the part_001 variant, the Search Client is invoked exactly once
unconditionally before the generic branch is consulted — when that search
succeeds the generic branch still routes to the Clarifier and emits its
text privately, but when the search throws the catch-all error reply is
emitted and the Clarifier is never invoked. -/
theorem generic_clarifier_routing (req : SlashReq) (env : Env) (b : Backend) (bv : V1Backend)
    (hm : req.method = "POST")
    (hne : parseSlashBody req.textField ≠ "")
    (hg : isGeneric (parseSlashBody req.textField) = true) :
    (handler req env b none).fst =
      [⟨200, true, clarifyingMessage env.hasOpenAIKey b.modelCall b.modelMs 1400⟩] ∧
    (handler req env b none).snd = ⟨0, [], 1⟩ ∧
    (handlerV1 req bv).snd.searchCount = 1 ∧
    (∀ j, sliteSearchV1 bv.search = Except.ok j →
      (handlerV1 req bv).fst = [⟨200, true, clarifyingMessageV1 bv.modelCall⟩] ∧
      (handlerV1 req bv).snd = ⟨1, [], 1⟩) ∧
    (∀ e, sliteSearchV1 bv.search = Except.error e →
      (handlerV1 req bv).fst = [⟨200, true, some ("❌ Error: " ++ e)⟩] ∧
      (handlerV1 req bv).snd = ⟨1, [], 0⟩) := by
  refine ⟨?_, ?_, ?_, ?_, ?_⟩
  · unfold handler handlerTry
    rw [if_neg (by simp [hm])]
    simp [hne, hg]
  · unfold handler handlerTry
    rw [if_neg (by simp [hm])]
    simp [hne, hg]
  · unfold handlerV1
    rw [if_neg (by simp [hm]), if_neg hne]
    cases hsea : sliteSearchV1 bv.search with
    | error e => rfl
    | ok j => cases hh : j.hits.getD [] <;> simp [hg, hh]
  · intro j hj
    unfold handlerV1
    rw [if_neg (by simp [hm]), if_neg hne, hj]
    cases hh : j.hits.getD [] <;> simp [hg, hh]
  · intro e he
    unfold handlerV1
    rw [if_neg (by simp [hm]), if_neg hne, he]
    exact ⟨rfl, rfl⟩

/-- C6 witness: the generic query `how to work a lead`, with a concrete
backend for each handler; the api/index.js handler goes straight to the
clarifier with no search, and the part_001 handler logs one search and
emits the clarifier text on search success. -/
theorem generic_clarifier_routing_witness :
    (handler ⟨"POST", some "how to work a lead"⟩ ⟨false⟩
        ⟨FetchOp.rejects 0, FetchOp.rejects 0, FetchOp.rejects 0, FetchOp.rejects 0,
          ModelCall.throws, 0⟩ none).fst =
      [⟨200, true, clarifyingMessage false ModelCall.throws 0 1400⟩] ∧
    (handler ⟨"POST", some "how to work a lead"⟩ ⟨false⟩
        ⟨FetchOp.rejects 0, FetchOp.rejects 0, FetchOp.rejects 0, FetchOp.rejects 0,
          ModelCall.throws, 0⟩ none).snd = ⟨0, [], 1⟩ ∧
    (handlerV1 ⟨"POST", some "how to work a lead"⟩
        ⟨PlainFetch.answers ⟨200, JsonBody.parses ⟨some [⟨"n1"⟩]⟩⟩, PlainFetch.rejects,
          ModelCall.throws⟩).snd.searchCount = 1 ∧
    (handlerV1 ⟨"POST", some "how to work a lead"⟩
        ⟨PlainFetch.answers ⟨200, JsonBody.parses ⟨some [⟨"n1"⟩]⟩⟩, PlainFetch.rejects,
          ModelCall.throws⟩).fst = [⟨200, true, clarifyingMessageV1 ModelCall.throws⟩] ∧
    (handlerV1 ⟨"POST", some "how to work a lead"⟩
        ⟨PlainFetch.answers ⟨200, JsonBody.parses ⟨some [⟨"n1"⟩]⟩⟩, PlainFetch.rejects,
          ModelCall.throws⟩).snd = ⟨1, [], 1⟩ := by
  have t := generic_clarifier_routing ⟨"POST", some "how to work a lead"⟩ ⟨false⟩
    ⟨FetchOp.rejects 0, FetchOp.rejects 0, FetchOp.rejects 0, FetchOp.rejects 0,
      ModelCall.throws, 0⟩
    ⟨PlainFetch.answers ⟨200, JsonBody.parses ⟨some [⟨"n1"⟩]⟩⟩, PlainFetch.rejects,
      ModelCall.throws⟩
    rfl (by decide) (by decide)
  exact ⟨t.1, t.2.1, t.2.2.1, (t.2.2.2.1 ⟨some [⟨"n1"⟩]⟩ rfl).1, (t.2.2.2.1 ⟨some [⟨"n1"⟩]⟩ rfl).2⟩

/-- C7: for every request whose text field is empty or whitespace-only
after trimming, the handler emits the private usage reply and makes no
backend call at all — no search, no document fetch, no clarifier (hence no
language-model call). -/
theorem handler_empty_usage (req : SlashReq) (env : Env) (b : Backend)
    (hm : req.method = "POST")
    (he : parseSlashBody req.textField = "") :
    (handler req env b none).fst = [usageReply] ∧
    (handler req env b none).snd = noCalls := by
  unfold handler handlerTry
  rw [if_neg (by simp [hm])]
  simp [he]

/-- C7 witness: a whitespace-only text field yields the usage reply with an
empty call log. -/
theorem handler_empty_usage_witness :
    (handler ⟨"POST", some "   "⟩ ⟨true⟩
        ⟨FetchOp.rejects 0, FetchOp.rejects 0, FetchOp.rejects 0, FetchOp.rejects 0,
          ModelCall.throws, 0⟩ none).fst = [usageReply] ∧
    (handler ⟨"POST", some "   "⟩ ⟨true⟩
        ⟨FetchOp.rejects 0, FetchOp.rejects 0, FetchOp.rejects 0, FetchOp.rejects 0,
          ModelCall.throws, 0⟩ none).snd = noCalls :=
  handler_empty_usage _ _ _ rfl (by decide)

/-- C8: `sliteGet` is a total function into `Option Doc` — it returns a
document or `null` and never throws — and it applies the same dual-variant
fallback policy as the Search Client: a primary 2xx with a parsed payload
returns the document; a primary 404, rejection (timeout or network error),
or malformed 2xx payload falls back to the legacy variant; a primary
non-2xx other than 404 returns `null`; and the legacy variant swallows its
own timeout, rejection, non-2xx, and malformed payload into `null`, so
every failing path (timeout, backend error, not-found) ends in `null`. -/
theorem sliteGet_null_policy (pl : FetchOp (HttpResp Doc)) (t s ms : Nat) (b : JsonBody Doc) :
    sliteGet (FetchOp.rejects t) pl ms = legacyGet pl ms ∧
    sliteGet (FetchOp.resolves ⟨s, b⟩ t) pl ms =
      (if t < ms then
        (if okStatus s then
          (match b with
           | .parses d => some d
           | .malformed => legacyGet pl ms)
         else if s = 404 then legacyGet pl ms else none)
       else legacyGet pl ms) ∧
    legacyGet (FetchOp.rejects t) ms = none ∧
    legacyGet (FetchOp.resolves ⟨s, b⟩ t) ms =
      (if t < ms then
        (if okStatus s then
          (match b with | .parses d => some d | .malformed => none)
         else none)
       else none) := by
  by_cases h : t < ms <;> simp [sliteGet, legacyGet, fetchWithTimeout, h]

/-- C9 counterexample: in the detached variant, a POST whose body lacks the
callback reference does not proceed without failure: the delivery attempt
is made against the absent reference, rejects, and the error-path delivery
rejects again, so an exception escapes the handler — `escaped` is not
`none`, refuting the claim at this concrete input. -/
theorem detached_missing_callback_counterexample :
    (detachedHandler ⟨"POST", some "refund SOP", none, some "kyle"⟩
        ⟨AiCall.returns ⟨some "Here are the steps."⟩, false, false⟩).escaped =
      some invalidUrlError ∧
    some invalidUrlError ≠ (none : Option String) :=
  ⟨rfl, by decide⟩

/-- C9 amended: in the detached variant, for every POST whose body lacks
the callback reference, the immediate acknowledgment is still sent and the
backend (model) call still runs, but the final delivery is not skipped: it
is attempted against the absent reference and rejects, the error-path
delivery attempt rejects as well, and the exception escapes the handler; no
delivery is ever performed. -/
theorem detached_missing_callback_behavior (req : DetachedReq) (o : DetachedOracle)
    (hm : req.method = "POST") (hr : req.responseUrl = none) :
    detachedHandler req o =
      ⟨[⟨200, true, ackText req.userName⟩], [], true, some invalidUrlError⟩ := by
  unfold detachedHandler detachedCatch
  rw [if_neg (by simp [hm])]
  rw [hr]
  cases o.ai <;> simp [hr]

/-- C9 witness: concrete detached request without a callback reference. -/
theorem detached_missing_callback_behavior_witness :
    detachedHandler ⟨"POST", some "q", none, some "kyle"⟩
        ⟨AiCall.throws, false, false⟩ =
      ⟨[⟨200, true, ackText (some "kyle")⟩], [], true, some invalidUrlError⟩ :=
  detached_missing_callback_behavior _ _ rfl rfl

/-- C10: when the model call resolves within the budget (wins the race)
and succeeds, but its completion content is absent or trims to the empty
string, `clarifyingMessage` returns the one-line fallback without the
enumerated option list, which differs byte-for-byte from the static
fallback returned on thrown errors and on timeout. -/
theorem clarifyingMessage_blank_content (c : Option String) (askMs budgetMs : Nat)
    (hrace : askMs < budgetMs)
    (hblank : c = none ∨ ∃ s, c = some s ∧ jsTrim s = "") :
    clarifyingMessage true (ModelCall.succeeds c) askMs budgetMs = clarifyShortFallback ∧
    clarifyShortFallback ≠ clarifyStaticFallback := by
  refine ⟨?_, by decide⟩
  unfold clarifyingMessage askResult
  rw [if_pos hrace]
  rcases hblank with h | ⟨s, hs, ht⟩
  · subst h; simp
  · subst hs; simp [ht]

/-- C10 witness: whitespace-only completion content within budget yields
the one-line fallback. -/
theorem clarifyingMessage_blank_content_witness :
    clarifyingMessage true (ModelCall.succeeds (some "   ")) 0 1400 = clarifyShortFallback ∧
    clarifyShortFallback ≠ clarifyStaticFallback :=
  clarifyingMessage_blank_content (some "   ") 0 1400 (by decide) (Or.inr ⟨"   ", rfl, by decide⟩)

end SliteBot
